import Mathlib

/-!
Shallow embedding of the cdp-wallet-subscription-demo application:
the two backend request handlers (charge-subscription, revoke-subscription)
and the client-side SubscriptionManager state machine, translated from the
TypeScript source.  External platform SDK calls are passed in as function
parameters; each UI operation is modelled as a state-transition function on
the component state, recording whether the platform or a backend handler was
actually invoked.
-/

namespace CdpDemo

/-- JavaScript truthiness of an optional string: undefined and the empty
string are falsy. -/
def strTruthy : Option String → Bool
  | none => false
  | some s => if s = "" then false else true

/-- JavaScript `x || d` for an optional string `x` and a string default. -/
def jsOrStr (x : Option String) (d : String) : String :=
  match x with
  | some v => if v = "" then d else v
  | none => d

/-- Error tag used by the UI for differentiated banner treatment
(the optional type field, gas or err, in SubscriptionManager). -/
inductive ErrTag
  | gas
  | err
deriving DecidableEq

/-- WalletInfo as in SubscriptionManager. -/
structure WalletInfo where
  address : String
  walletName : Option String := none
  message : Option String := none
deriving DecidableEq

/-- SubscriptionInfo as in SubscriptionManager. -/
structure SubscriptionInfo where
  id : String
  subscriptionPayer : String
  recurringCharge : String
  periodInDays : Nat
deriving DecidableEq

/-- SubscriptionStatus as in SubscriptionManager (Date modelled as epoch ms). -/
structure SubscriptionStatus where
  isSubscribed : Bool
  remainingChargeInPeriod : Option String := none
  nextPeriodStart : Option Nat := none
  subscriptionOwner : Option String := none
  subscriptionPayer : Option String := none
deriving DecidableEq

/-- Structured ErrorInfo banner payload as in SubscriptionManager. -/
structure ErrorInfo where
  title : String
  message : Option String := none
  details : Option String := none
  type : Option ErrTag := none
deriving DecidableEq

/-- The `error` state field holds either a plain string or a structured
ErrorInfo (`string | ErrorInfo | null` in the source). -/
inductive Banner
  | text (s : String)
  | structured (info : ErrorInfo)
deriving DecidableEq

/-- The per-operation busy flags (`loading: Record<string, boolean>`). -/
structure LoadingFlags where
  wallet : Bool := false
  subscription : Bool := false
  status : Bool := false
  charge : Bool := false
  revoke : Bool := false
deriving DecidableEq

/-- The SubscriptionManager component state, together with the two
local-storage records (`bbq-wallet`, `bbq-subscription`) modelled as the
parsed values they hold. -/
structure UIState where
  wallet : Option WalletInfo := none
  subscription : Option SubscriptionInfo := none
  subscriptionStatus : Option SubscriptionStatus := none
  loading : LoadingFlags := {}
  error : Option Banner := none
  success : Option String := none
  subscriptionAmount : String := "29.99"
  chargeAmount : String := "1.00"
  recipientAddress : String := ""
  storedWallet : Option WalletInfo := none
  storedSubscription : Option SubscriptionInfo := none
deriving DecidableEq

/-! Backend handlers (src/app/API). The platform SDK is a parameter; an
exception raised by it is modelled as `Except.error` carrying the message
string (an empty string models a falsy `error.message`). Each handler also
returns the options it passed to the SDK, or `none` when the SDK was not
invoked. -/

/-- An exception thrown by the platform SDK (`error.message`). -/
structure SdkError where
  message : String
deriving DecidableEq

/-- Parsed JSON body of a charge-subscription request. -/
structure ChargeBody where
  subscriptionId : Option String := none
  amount : Option String := none
  recipient : Option String := none
deriving DecidableEq

/-- The options object passed to `base.subscription.charge` (credentials
omitted: they are environment constants not read anywhere else). -/
structure ChargeOptions where
  id : String
  amount : String
  testnet : Bool
  walletName : String
  recipient : Option String := none
deriving DecidableEq

/-- Result of a successful `base.subscription.charge` call. -/
structure ChargeResult where
  id : String
  amount : String
  subscriptionOwner : String
  subscriptionId : String
  recipient : Option String := none
deriving DecidableEq

/-- JSON body of a charge-subscription response; every field that any party
reads is an explicit optional field, `none` meaning absent. -/
structure ChargeResponseBody where
  success : Option Bool := none
  transactionHash : Option String := none
  amount : Option String := none
  subscriptionOwner : Option String := none
  message : Option String := none
  subscriptionId : Option String := none
  recipient : Option String := none
  error : Option String := none
  details : Option String := none
deriving DecidableEq

/-- An HTTP response: status code plus parsed JSON body. -/
structure HttpResponse (β : Type) where
  status : Nat
  body : β
deriving DecidableEq

/-- The default charge amount: chargeAmount is the request amount when truthy, else "1.00". -/
def chargeAmountOf (body : ChargeBody) : String :=
  jsOrStr body.amount "1.00"

/-- The `chargeOptions` object built by the charge handler, including the
conditional `recipient` spread. -/
def chargeOptionsOf (body : ChargeBody) : ChargeOptions :=
  { id := body.subscriptionId.getD ""
    amount := chargeAmountOf body
    testnet := true
    walletName := "bbq-sub-v1"
    recipient := if strTruthy body.recipient = true then body.recipient else none }

/-- POST handler of src/app/API/charge-subscription/route.ts, from a parsed
request body. Returns the response and the options passed to the SDK
(`none` when validation failed before the SDK call). -/
def chargePOST (body : ChargeBody)
    (platform : ChargeOptions → Except SdkError ChargeResult) :
    HttpResponse ChargeResponseBody × Option ChargeOptions :=
  if strTruthy body.subscriptionId = false then
    ({ status := 400, body := { error := some "Missing subscriptionId" } }, none)
  else
    let opts := chargeOptionsOf body
    match platform opts with
    | Except.ok r =>
        ({ status := 200
           body :=
             { success := some true
               transactionHash := some r.id
               amount := some r.amount
               subscriptionOwner := some r.subscriptionOwner
               message := some ("Successfully charged $" ++ r.amount ++ " USDC")
               subscriptionId := some r.subscriptionId
               recipient := if strTruthy r.recipient = true then r.recipient else none } },
         some opts)
    | Except.error e =>
        ({ status := 500
           body :=
             { success := some false
               error := some (jsOrStr (some e.message) "Failed to charge subscription") } },
         some opts)

/-- Parsed JSON body of a revoke-subscription request. -/
structure RevokeBody where
  subscriptionId : Option String := none
deriving DecidableEq

/-- The options object passed to `base.subscription.revoke`. -/
structure RevokeOptions where
  id : String
  testnet : Bool
  walletName : String
deriving DecidableEq

/-- JSON body of a revoke-subscription response (`revokeResult` is the raw
opaque SDK payload, modelled as a string). -/
structure RevokeResponseBody where
  success : Option Bool := none
  subscriptionId : Option String := none
  message : Option String := none
  revokeResult : Option String := none
  error : Option String := none
deriving DecidableEq

/-- The options object built by the revoke handler. -/
def revokeOptionsOf (body : RevokeBody) : RevokeOptions :=
  { id := body.subscriptionId.getD ""
    testnet := true
    walletName := "bbq-sub-v1" }

/-- POST handler of src/app/API/revoke-subscription/route.ts, from a parsed
request body. Returns the response and the options passed to the SDK. -/
def revokePOST (body : RevokeBody)
    (platform : RevokeOptions → Except SdkError String) :
    HttpResponse RevokeResponseBody × Option RevokeOptions :=
  if strTruthy body.subscriptionId = false then
    ({ status := 400, body := { error := some "Missing subscriptionId" } }, none)
  else
    let opts := revokeOptionsOf body
    match platform opts with
    | Except.ok r =>
        ({ status := 200
           body :=
             { success := some true
               subscriptionId := body.subscriptionId
               message := some "Subscription revoked successfully"
               revokeResult := some r } },
         some opts)
    | Except.error e =>
        ({ status := 500
           body :=
             { success := some false
               error := some (jsOrStr (some e.message) "Failed to revoke subscription") } },
         some opts)

/-! UI operations of SubscriptionManager. Each handler is a function from
the pre-state and the outcome of its external call to the post-state after
the async function has run to completion, together with a record of which
external calls it actually made. -/

/-- Outcome of `handleCreateWallet`: resulting state plus whether the
`/API/create-wallet` fetch was issued. The response is `some data` when
`response.ok` held and `none` otherwise (the code then throws
an exception with message "Failed to create wallet", caught by its own catch). -/
structure CreateWalletOutcome where
  state : UIState
  handlerCalled : Bool
deriving DecidableEq

/-- Operation handleCreateWallet from SubscriptionManager: no guard of any kind;
sets the wallet busy flag, clears banners, issues the fetch, and on success
stores the wallet in state and local storage. -/
def handleCreateWallet (s : UIState) (resp : Option WalletInfo) : CreateWalletOutcome :=
  let s1 : UIState := { s with loading.wallet := true, error := none, success := none }
  match resp with
  | some data =>
      { state := { s1 with
          wallet := some data
          storedWallet := some data
          success := some "Wallet created successfully!"
          loading.wallet := false }
        handlerCalled := true }
  | none =>
      { state := { s1 with
          error := some (Banner.text "Failed to create wallet")
          loading.wallet := false }
        handlerCalled := true }

/-- The disabled condition of the Create Wallet button:
`disabled={loading.wallet || !!wallet}`. -/
def createWalletButtonDisabled (s : UIState) : Bool :=
  s.loading.wallet || s.wallet.isSome

/-- Result of the client-side `base.subscription.subscribe` call. -/
structure SubscribeResult where
  id : String
  subscriptionPayer : String
  recurringCharge : String
  periodInDays : Nat
deriving DecidableEq

/-- Outcome of `handleCreateSubscription`: resulting state, whether the
platform subscribe call was made, and the subscription id for which a
delayed status fetch was scheduled (the `setTimeout`). -/
structure CreateSubscriptionOutcome where
  state : UIState
  platformCalled : Bool
  statusRefreshScheduledFor : Option String := none
deriving DecidableEq

/-- Operation handleCreateSubscription from SubscriptionManager: guarded on wallet
presence; on success stores the SubscriptionInfo in state and local storage
and schedules a delayed status fetch. -/
def handleCreateSubscription (s : UIState) (resp : Except SdkError SubscribeResult) :
    CreateSubscriptionOutcome :=
  match s.wallet with
  | none =>
      { state := { s with error := some (Banner.text "Please create a wallet first") }
        platformCalled := false }
  | some _ =>
      let s1 : UIState := { s with loading.subscription := true, error := none, success := none }
      match resp with
      | Except.ok sub =>
          let data : SubscriptionInfo :=
            { id := sub.id
              subscriptionPayer := sub.subscriptionPayer
              recurringCharge := sub.recurringCharge
              periodInDays := sub.periodInDays }
          { state := { s1 with
              subscription := some data
              storedSubscription := some data
              success := some "Subscription created successfully!"
              loading.subscription := false }
            platformCalled := true
            statusRefreshScheduledFor := some sub.id }
      | Except.error e =>
          { state := { s1 with
              error := some (Banner.text (jsOrStr (some e.message) "Failed to create subscription"))
              loading.subscription := false }
            platformCalled := true }

/-- The id resolution of `handleGetStatus`:
`const id = subscriptionId || subscription?.id`. -/
def resolvedStatusId (s : UIState) (explicitId : Option String) : Option String :=
  if strTruthy explicitId = true then explicitId else s.subscription.map (fun x => x.id)

/-- Operation handleGetStatus from SubscriptionManager. Returns the post-state and
whether the platform getStatus call was made. On success the fetched status
replaces the stored one wholesale; on failure only the error banner is set. -/
def handleGetStatus (s : UIState) (explicitId : Option String)
    (fetch : String → Except SdkError SubscriptionStatus) : UIState × Bool :=
  let idOpt := resolvedStatusId s explicitId
  if strTruthy idOpt = false then
    ({ s with error := some (Banner.text "No subscription created yet") }, false)
  else
    let s1 : UIState := { s with loading.status := true, error := none }
    match fetch (idOpt.getD "") with
    | Except.ok st =>
        ({ s1 with subscriptionStatus := some st, loading.status := false }, true)
    | Except.error e =>
        ({ s1 with
            error := some (Banner.text (jsOrStr (some e.message) "Failed to get subscription status"))
            loading.status := false }, true)

/-- Outcome of `handleChargeSubscription`: resulting state, the request body
sent to the charge handler (`none` when the guard stopped the operation),
and whether the delayed status refresh was scheduled. -/
structure ChargeOutcome where
  state : UIState
  requestSent : Option ChargeBody := none
  statusRefreshScheduled : Bool := false
deriving DecidableEq

/-- Operation handleChargeSubscription from SubscriptionManager, applied to the
HTTP exchange outcome (`ok` is `response.ok`, `data` the parsed body). The
failure classification keys on the literal string match
of the error field against "Insufficient Gas", then on its truthiness,
and otherwise throws into its own catch, yielding a plain-text banner. -/
def handleChargeSubscription (s : UIState) (ok : Bool) (data : ChargeResponseBody) :
    ChargeOutcome :=
  match s.wallet, s.subscription with
  | some _, some sub =>
      let req : ChargeBody :=
        { subscriptionId := some sub.id
          amount := some s.chargeAmount
          recipient := if s.recipientAddress = "" then none else some s.recipientAddress }
      let s1 : UIState := { s with loading.charge := true, error := none, success := none }
      if ok = false then
        if data.error = some "Insufficient Gas" then
          { state := { s1 with
              error := some (Banner.structured
                { title := "Insufficient Gas"
                  message := data.message
                  details := data.details
                  type := some ErrTag.gas })
              loading.charge := false }
            requestSent := some req }
        else if strTruthy data.error = true then
          { state := { s1 with
              error := some (Banner.structured
                { title := data.error.getD ""
                  message := some (jsOrStr data.message (data.error.getD ""))
                  details := data.details
                  type := some ErrTag.err })
              loading.charge := false }
            requestSent := some req }
        else
          { state := { s1 with
              error := some (Banner.text "Failed to charge subscription")
              loading.charge := false }
            requestSent := some req }
      else
        if data.success = some true then
          { state := { s1 with
              success := some (jsOrStr data.message
                ("Successfully charged $" ++ jsOrStr data.amount "undefined"))
              loading.charge := false }
            requestSent := some req
            statusRefreshScheduled := true }
        else
          { state := { s1 with
              error := some (Banner.text (jsOrStr data.message "Failed to charge subscription"))
              loading.charge := false }
            requestSent := some req }
  | _, _ =>
      { state := { s with error := some (Banner.text "Please create a wallet and subscription first") } }

/-- The in-function guard of `handleChargeSubscription`:
`if (!wallet || !subscription) return` — the operation proceeds only when
both are present. -/
def chargeGuardPasses (s : UIState) : Bool :=
  s.wallet.isSome && s.subscription.isSome

/-- Outcome of `handleRevokeSubscription`. -/
structure RevokeOutcome where
  state : UIState
  requestSent : Option RevokeBody := none
  statusRefreshScheduled : Bool := false
deriving DecidableEq

/-- Operation handleRevokeSubscription from SubscriptionManager. On success the
subscription record is deliberately left in state and local storage. -/
def handleRevokeSubscription (s : UIState) (ok : Bool) (data : RevokeResponseBody) :
    RevokeOutcome :=
  match s.subscription with
  | none =>
      { state := { s with error := some (Banner.text "No subscription to revoke") } }
  | some sub =>
      let s1 : UIState := { s with loading.revoke := true, error := none, success := none }
      if ok = false then
        { state := { s1 with
            error := some (Banner.text (jsOrStr data.error "Failed to revoke subscription"))
            loading.revoke := false }
          requestSent := some { subscriptionId := some sub.id } }
      else
        { state := { s1 with
            success := some "Subscription revoked successfully! You can still try to charge to validate the revoke took effect."
            loading.revoke := false }
          requestSent := some { subscriptionId := some sub.id }
          statusRefreshScheduled := true }

/-- Kind tag of the current error banner, when it is structured. -/
def bannerKind : Option Banner → Option ErrTag
  | some (Banner.structured info) => info.type
  | _ => none

/-- Details line of the current error banner, when it is structured. -/
def bannerDetails : Option Banner → Option String
  | some (Banner.structured info) => info.details
  | _ => none

/-- The wallet address shown inside the rendered error banner: the JSX
renders it exactly when the banner is structured, its type is gas, and a
wallet is present (the banner type is gas and a wallet exists). -/
def renderedGasAddress (b : Option Banner) (wallet : Option WalletInfo) : Option String :=
  match b, wallet with
  | some (Banner.structured info), some w =>
      if info.type = some ErrTag.gas then some w.address else none
  | _, _ => none

/-- Body of the status-check effect (the `useEffect` keyed on
`subscription?.id`), run to completion: returns the post-state and the
number of platform getStatus calls it issued. -/
def checkStatusEffect (s : UIState)
    (fetch : String → Except SdkError SubscriptionStatus) : UIState × Nat :=
  match s.subscription with
  | none => (s, 0)
  | some sub =>
      if s.subscriptionStatus = none ∧ s.loading.status = false then
        match fetch sub.id with
        | Except.ok st =>
            ({ s with subscriptionStatus := some st, error := none, loading.status := false }, 1)
        | Except.error e =>
            ({ s with
                error := some (Banner.text (jsOrStr (some e.message) "Failed to get subscription status"))
                loading.status := false }, 1)
      else (s, 0)

/-- Number of positions at which the dependency value differs from its
predecessor, given the previous value. -/
def countChanges : Option String → List (Option String) → Nat
  | _, [] => 0
  | prev, d :: ds => (if d = prev then 0 else 1) + countChanges d ds

/-- How many times React runs an effect with dependency array
`[subscription?.id]` over a sequence of committed renders: once at mount,
then once per change of the dependency value. -/
def depRunCount : List (Option String) → Nat
  | [] => 0
  | d :: ds => 1 + countChanges d ds

/-! Concrete instances used by the witness theorems. -/

/-- A concrete wallet record. -/
def demoWallet : WalletInfo := { address := "0xabc" }

/-- A concrete subscription record. -/
def demoSubscription : SubscriptionInfo :=
  { id := "sub-1", subscriptionPayer := "0xpayer", recurringCharge := "29.99", periodInDays := 30 }

/-- A concrete subscription status. -/
def demoStatus : SubscriptionStatus := { isSubscribed := true }

/-- A platform charge stub that always succeeds, echoing its options. -/
def demoChargePlatform : ChargeOptions → Except SdkError ChargeResult :=
  fun o => Except.ok
    { id := "0xtx", amount := o.amount, subscriptionOwner := "0xowner"
      subscriptionId := o.id, recipient := o.recipient }

/-- A platform revoke stub that always succeeds. -/
def demoRevokePlatform : RevokeOptions → Except SdkError String :=
  fun _ => Except.ok "revoked"

/-- A platform getStatus stub that always succeeds. -/
def demoStatusFetch : String → Except SdkError SubscriptionStatus :=
  fun _ => Except.ok demoStatus

/-- A UI state holding the concrete wallet and subscription. -/
def demoState : UIState :=
  { wallet := some demoWallet, subscription := some demoSubscription }

/-! Claim theorems. -/

/-- Claim C1: a charge request whose body has a missing or empty
subscriptionId yields a 400 response whose body carries an error field, and
the platform charge operation is never invoked; a request with a truthy
subscriptionId and no amount field passes amount "1.00" to the platform. -/
theorem charge_handler_validation_and_default
    (body : ChargeBody) (platform : ChargeOptions → Except SdkError ChargeResult) :
    (strTruthy body.subscriptionId = false →
       (chargePOST body platform).1.status = 400 ∧
       ((chargePOST body platform).1.body.error).isSome = true ∧
       (chargePOST body platform).2 = none) ∧
    (strTruthy body.subscriptionId = true → body.amount = none →
       ((chargePOST body platform).2).map (fun o => o.amount) = some "1.00") := by
  constructor
  · intro h
    simp [chargePOST, h]
  · intro h hamt
    have hval : chargeAmountOf body = "1.00" := by
      simp [chargeAmountOf, jsOrStr, hamt]
    simp only [chargePOST, h]
    cases hp : platform (chargeOptionsOf body) <;>
      simp [hp, chargeOptionsOf, hval]

/-- Witness for C1 at the empty-string body and at a valid body with the
amount omitted. -/
theorem charge_handler_validation_and_default_witness :
    ((chargePOST { subscriptionId := some "" } demoChargePlatform).1.status = 400 ∧
     ((chargePOST { subscriptionId := some "" } demoChargePlatform).1.body.error).isSome = true ∧
     (chargePOST { subscriptionId := some "" } demoChargePlatform).2 = none) ∧
    ((chargePOST { subscriptionId := some "sub-1" } demoChargePlatform).2).map
      (fun o => o.amount) = some "1.00" :=
  ⟨(charge_handler_validation_and_default { subscriptionId := some "" } demoChargePlatform).1
      (by decide),
   (charge_handler_validation_and_default { subscriptionId := some "sub-1" } demoChargePlatform).2
      (by decide) rfl⟩

/-- Claim C4: a revoke request with no subscriptionId yields status 400; a
request carrying a non-empty subscriptionId for which the platform revoke
succeeds yields a body with success true echoing the same subscriptionId. -/
theorem revoke_handler_contract
    (body : RevokeBody) (platform : RevokeOptions → Except SdkError String) :
    (body.subscriptionId = none → (revokePOST body platform).1.status = 400) ∧
    (∀ id r, body.subscriptionId = some id → id ≠ "" →
       platform (revokeOptionsOf body) = Except.ok r →
       (revokePOST body platform).1.body.success = some true ∧
       (revokePOST body platform).1.body.subscriptionId = some id) := by
  constructor
  · intro h
    simp [revokePOST, strTruthy, h]
  · intro id r hid hne hp
    simp [revokePOST, strTruthy, hid, hne, hp]

/-- Witness for C4 at an empty body and at a concrete valid body. -/
theorem revoke_handler_contract_witness :
    (revokePOST {} demoRevokePlatform).1.status = 400 ∧
    ((revokePOST { subscriptionId := some "sub-1" } demoRevokePlatform).1.body.success = some true ∧
     (revokePOST { subscriptionId := some "sub-1" } demoRevokePlatform).1.body.subscriptionId =
       some "sub-1") :=
  ⟨(revoke_handler_contract {} demoRevokePlatform).1 rfl,
   (revoke_handler_contract { subscriptionId := some "sub-1" } demoRevokePlatform).2
      "sub-1" "revoked" rfl (by decide) rfl⟩

/-- Claim C2: processing a charge-handler failure response with wallet and
subscription present: an error field equal to "Insufficient Gas" yields a
structured banner of kind gas whose rendering shows the current wallet
address; any other non-empty error field yields kind err; an absent error
field falls through to the generic thrown-error text banner. -/
theorem charge_failure_banner_classification
    (s : UIState) (w : WalletInfo) (sub : SubscriptionInfo) (data : ChargeResponseBody)
    (hw : s.wallet = some w) (hs : s.subscription = some sub) :
    (data.error = some "Insufficient Gas" →
       bannerKind (handleChargeSubscription s false data).state.error = some ErrTag.gas ∧
       renderedGasAddress (handleChargeSubscription s false data).state.error
         (handleChargeSubscription s false data).state.wallet = some w.address) ∧
    (∀ e, data.error = some e → e ≠ "" → e ≠ "Insufficient Gas" →
       bannerKind (handleChargeSubscription s false data).state.error = some ErrTag.err) ∧
    (data.error = none →
       (handleChargeSubscription s false data).state.error =
         some (Banner.text "Failed to charge subscription")) := by
  refine ⟨?_, ?_, ?_⟩
  · intro hgas
    simp [handleChargeSubscription, hw, hs, hgas, bannerKind, renderedGasAddress]
  · intro e he hne hni
    simp [handleChargeSubscription, hw, hs, he, hni, strTruthy, hne, bannerKind]
  · intro hnone
    simp [handleChargeSubscription, hw, hs, hnone, strTruthy]

/-- Witness for C2 at a concrete state and the three kinds of failure
payload. -/
theorem charge_failure_banner_classification_witness :
    (bannerKind (handleChargeSubscription demoState false
        { error := some "Insufficient Gas" }).state.error = some ErrTag.gas ∧
     renderedGasAddress (handleChargeSubscription demoState false
        { error := some "Insufficient Gas" }).state.error
       (handleChargeSubscription demoState false
        { error := some "Insufficient Gas" }).state.wallet = some demoWallet.address) ∧
    bannerKind (handleChargeSubscription demoState false
        { error := some "boom" }).state.error = some ErrTag.err ∧
    (handleChargeSubscription demoState false {}).state.error =
      some (Banner.text "Failed to charge subscription") :=
  ⟨(charge_failure_banner_classification demoState demoWallet demoSubscription
      { error := some "Insufficient Gas" } rfl rfl).1 rfl,
   (charge_failure_banner_classification demoState demoWallet demoSubscription
      { error := some "boom" } rfl rfl).2.1 "boom" rfl (by decide) (by decide),
   (charge_failure_banner_classification demoState demoWallet demoSubscription
      {} rfl rfl).2.2 rfl⟩

/-- Claim C3 (code evaluation): at a state whose wallet is already present,
invoking the Create Wallet operation directly still issues the
wallet-provisioning fetch and, on a successful response, overwrites the
wallet — the operation itself performs no guard check; only the UI button
is disabled there. -/
theorem create_wallet_operation_lacks_guard :
    (handleCreateWallet { wallet := some demoWallet } (some { address := "0xnew" })).handlerCalled
      = true ∧
    (handleCreateWallet { wallet := some demoWallet } (some { address := "0xnew" })).state.wallet
      = some { address := "0xnew" } ∧
    createWalletButtonDisabled { wallet := some demoWallet } = true := by
  refine ⟨rfl, rfl, rfl⟩

/-- Claim C5: a successful Revoke Subscription leaves the subscription
record untouched in both component state and local storage, the charge
guard still passes afterwards, and a subsequent Charge Subscription run
actually sends its request. -/
theorem revoke_success_preserves_subscription
    (s : UIState) (w : WalletInfo) (sub : SubscriptionInfo) (data : RevokeResponseBody)
    (hw : s.wallet = some w) (hs : s.subscription = some sub) :
    (handleRevokeSubscription s true data).state.subscription = s.subscription ∧
    (handleRevokeSubscription s true data).state.storedSubscription = s.storedSubscription ∧
    chargeGuardPasses (handleRevokeSubscription s true data).state = true ∧
    (∀ ok d, ((handleChargeSubscription (handleRevokeSubscription s true data).state ok d).requestSent).isSome = true) := by
  refine ⟨?_, ?_, ?_, ?_⟩
  · simp [handleRevokeSubscription, hs]
  · simp [handleRevokeSubscription, hs]
  · simp [handleRevokeSubscription, hs, chargeGuardPasses, hw]
  · intro ok d
    have hw2 : (handleRevokeSubscription s true data).state.wallet = some w := by
      simp [handleRevokeSubscription, hs, hw]
    have hs2 : (handleRevokeSubscription s true data).state.subscription = some sub := by
      simp [handleRevokeSubscription, hs]
    cases ok <;> simp only [handleChargeSubscription, hw2, hs2] <;> repeat' split
    all_goals simp

/-- Witness for C5 at the concrete demo state. -/
theorem revoke_success_preserves_subscription_witness :
    (handleRevokeSubscription demoState true {}).state.subscription = demoState.subscription ∧
    (handleRevokeSubscription demoState true {}).state.storedSubscription =
      demoState.storedSubscription ∧
    chargeGuardPasses (handleRevokeSubscription demoState true {}).state = true ∧
    (∀ ok d, ((handleChargeSubscription (handleRevokeSubscription demoState true {}).state ok d).requestSent).isSome = true) :=
  revoke_success_preserves_subscription demoState demoWallet demoSubscription {} rfl rfl

/-- Claim C6: invoking Create Subscription while the wallet is absent makes
no platform subscribe call, leaves the subscription absent, and immediately
sets the local error banner. -/
theorem create_subscription_requires_wallet
    (s : UIState) (resp : Except SdkError SubscribeResult)
    (hw : s.wallet = none) (hsub : s.subscription = none) :
    (handleCreateSubscription s resp).platformCalled = false ∧
    (handleCreateSubscription s resp).state.subscription = none ∧
    (handleCreateSubscription s resp).state.error =
      some (Banner.text "Please create a wallet first") := by
  refine ⟨?_, ?_, ?_⟩ <;> simp [handleCreateSubscription, hw, hsub]

/-- Witness for C6 at the empty initial state. -/
theorem create_subscription_requires_wallet_witness :
    (handleCreateSubscription {} (Except.error { message := "ignored" })).platformCalled = false ∧
    (handleCreateSubscription {} (Except.error { message := "ignored" })).state.subscription = none ∧
    (handleCreateSubscription {} (Except.error { message := "ignored" })).state.error =
      some (Banner.text "Please create a wallet first") :=
  create_subscription_requires_wallet {} (Except.error { message := "ignored" }) rfl rfl

/-- Claim C7: with a resolvable non-empty subscription id, Get Status on
success replaces the stored status wholesale with the fetched value, and on
failure leaves the stored status (and the rest of the record state) at its
prior value while setting the error banner. -/
theorem get_status_replaces_or_preserves
    (s : UIState) (eid : Option String) (id : String)
    (fetch : String → Except SdkError SubscriptionStatus)
    (hid : resolvedStatusId s eid = some id) (hne : id ≠ "") :
    (∀ st, fetch id = Except.ok st →
       (handleGetStatus s eid fetch).1.subscriptionStatus = some st ∧
       (handleGetStatus s eid fetch).1.subscription = s.subscription) ∧
    (∀ e, fetch id = Except.error e →
       (handleGetStatus s eid fetch).1.subscriptionStatus = s.subscriptionStatus ∧
       ((handleGetStatus s eid fetch).1.error).isSome = true ∧
       (handleGetStatus s eid fetch).1.success = s.success ∧
       (handleGetStatus s eid fetch).1.subscription = s.subscription) := by
  constructor
  · intro st hst
    simp [handleGetStatus, hid, strTruthy, hne, hst]
  · intro e he
    simp [handleGetStatus, hid, strTruthy, hne, he]

/-- Witness for C7: success replaces the status; a failing fetch leaves it
untouched and raises the banner. -/
theorem get_status_replaces_or_preserves_witness :
    ((handleGetStatus demoState none demoStatusFetch).1.subscriptionStatus = some demoStatus ∧
     (handleGetStatus demoState none demoStatusFetch).1.subscription = demoState.subscription) ∧
    ((handleGetStatus demoState none
        (fun _ => Except.error { message := "boom" })).1.subscriptionStatus =
       demoState.subscriptionStatus ∧
     ((handleGetStatus demoState none
        (fun _ => Except.error { message := "boom" })).1.error).isSome = true ∧
     (handleGetStatus demoState none
        (fun _ => Except.error { message := "boom" })).1.success = demoState.success ∧
     (handleGetStatus demoState none
        (fun _ => Except.error { message := "boom" })).1.subscription = demoState.subscription) :=
  ⟨(get_status_replaces_or_preserves demoState none "sub-1" demoStatusFetch rfl
      (by decide)).1 demoStatus rfl,
   (get_status_replaces_or_preserves demoState none "sub-1"
      (fun _ => Except.error { message := "boom" }) rfl (by decide)).2
      { message := "boom" } rfl⟩

/-- Counterexample to C8 as stated: for the platform exception whose message
is the empty string, the charge handler returns an error field holding the
fallback text, not the exception message itself — the message is not
forwarded verbatim. -/
theorem charge_error_message_not_verbatim :
    (chargePOST { subscriptionId := some "sub-1" }
        (fun _ => Except.error { message := "" })).1.status = 500 ∧
    (chargePOST { subscriptionId := some "sub-1" }
        (fun _ => Except.error { message := "" })).1.body.error =
      some "Failed to charge subscription" ∧
    (some "Failed to charge subscription" : Option String) ≠ some "" := by
  refine ⟨rfl, rfl, by decide⟩

/-- Claim C8 (amended): every platform SDK exception inside the charge or
revoke handler is caught and answered with a 500 response whose error field
is the exception message when that message is non-empty, and the fixed
fallback text for that handler when the message is empty; the handler always
returns such a structured response rather than propagating. -/
theorem platform_errors_caught_with_fallback
    (cb : ChargeBody) (rb : RevokeBody)
    (cp : ChargeOptions → Except SdkError ChargeResult)
    (rp : RevokeOptions → Except SdkError String) :
    (∀ e, strTruthy cb.subscriptionId = true → cp (chargeOptionsOf cb) = Except.error e →
       (chargePOST cb cp).1.status = 500 ∧
       (e.message ≠ "" → (chargePOST cb cp).1.body.error = some e.message) ∧
       (e.message = "" →
          (chargePOST cb cp).1.body.error = some "Failed to charge subscription")) ∧
    (∀ e, strTruthy rb.subscriptionId = true → rp (revokeOptionsOf rb) = Except.error e →
       (revokePOST rb rp).1.status = 500 ∧
       (e.message ≠ "" → (revokePOST rb rp).1.body.error = some e.message) ∧
       (e.message = "" →
          (revokePOST rb rp).1.body.error = some "Failed to revoke subscription")) := by
  constructor
  · intro e ht hp
    refine ⟨?_, ?_, ?_⟩
    · simp [chargePOST, ht, hp]
    · intro hm
      simp [chargePOST, ht, hp, jsOrStr, hm]
    · intro hm
      simp [chargePOST, ht, hp, jsOrStr, hm]
  · intro e ht hp
    refine ⟨?_, ?_, ?_⟩
    · simp [revokePOST, ht, hp]
    · intro hm
      simp [revokePOST, ht, hp, jsOrStr, hm]
    · intro hm
      simp [revokePOST, ht, hp, jsOrStr, hm]

/-- Witness for C8 (amended) at concrete failing platforms with a non-empty
and an empty exception message. -/
theorem platform_errors_caught_with_fallback_witness :
    ((chargePOST { subscriptionId := some "sub-1" }
        (fun _ => Except.error { message := "insufficient funds" })).1.status = 500 ∧
     (chargePOST { subscriptionId := some "sub-1" }
        (fun _ => Except.error { message := "insufficient funds" })).1.body.error =
       some "insufficient funds") ∧
    ((revokePOST { subscriptionId := some "sub-1" }
        (fun _ => Except.error { message := "" })).1.status = 500 ∧
     (revokePOST { subscriptionId := some "sub-1" }
        (fun _ => Except.error { message := "" })).1.body.error =
       some "Failed to revoke subscription") := by
  have hc := (platform_errors_caught_with_fallback
      { subscriptionId := some "sub-1" } { subscriptionId := some "sub-1" }
      (fun _ => Except.error { message := "insufficient funds" })
      (fun _ => Except.error { message := "" })).1
      { message := "insufficient funds" } (by decide) rfl
  have hr := (platform_errors_caught_with_fallback
      { subscriptionId := some "sub-1" } { subscriptionId := some "sub-1" }
      (fun _ => Except.error { message := "insufficient funds" })
      (fun _ => Except.error { message := "" })).2
      { message := "" } (by decide) rfl
  exact ⟨⟨hc.1, hc.2.1 (by decide)⟩, ⟨hr.1, hr.2.2 rfl⟩⟩

/-- A constant dependency sequence registers no changes after its first
value. -/
theorem countChanges_self_replicate (d : Option String) (n : Nat) :
    countChanges d (List.replicate n d) = 0 := by
  induction n with
  | zero => rfl
  | succ k ih => simp [List.replicate, countChanges, ih]

/-- Claim C9: restoring a subscription with no cached status and no status
fetch in flight makes the status-check effect issue exactly one fetch; over
any run of re-renders with the subscription id unchanged the effect body
runs exactly once; and even a hypothetical second run after the first
completes issues no further fetch. -/
theorem restored_subscription_single_status_fetch
    (s : UIState) (sub : SubscriptionInfo) (st : SubscriptionStatus)
    (fetch : String → Except SdkError SubscriptionStatus) (n : Nat)
    (hsub : s.subscription = some sub) (hst : s.subscriptionStatus = none)
    (hload : s.loading.status = false) (hf : fetch sub.id = Except.ok st) :
    (checkStatusEffect s fetch).2 = 1 ∧
    depRunCount (List.replicate (n + 1) (some sub.id)) = 1 ∧
    (checkStatusEffect (checkStatusEffect s fetch).1 fetch).2 = 0 := by
  refine ⟨?_, ?_, ?_⟩
  · simp [checkStatusEffect, hsub, hst, hload, hf]
  · simp [depRunCount, List.replicate, countChanges_self_replicate]
  · simp [checkStatusEffect, hsub, hst, hload, hf]

/-- Witness for C9 at the concrete restored state over four renders. -/
theorem restored_subscription_single_status_fetch_witness :
    (checkStatusEffect demoState demoStatusFetch).2 = 1 ∧
    depRunCount (List.replicate 4 (some demoSubscription.id)) = 1 ∧
    (checkStatusEffect (checkStatusEffect demoState demoStatusFetch).1 demoStatusFetch).2 = 0 :=
  restored_subscription_single_status_fetch demoState demoSubscription demoStatus
    demoStatusFetch 3 rfl rfl rfl rfl

/-- Whatever response body carrying no details field the charge operation
processes, the resulting banner carries no details line. -/
theorem bannerDetails_none_of_data (s : UIState) (ok : Bool) (data : ChargeResponseBody)
    (hd : data.details = none) :
    bannerDetails (handleChargeSubscription s ok data).state.error = none := by
  cases hw : s.wallet <;> cases hs : s.subscription <;>
    cases ok <;> simp only [handleChargeSubscription, hw, hs] <;> repeat' split
  all_goals simp [bannerDetails, hd]

/-- Claim C10: a 400 charge response body is exactly the single-field error
record; a 500 body holds success false and an error string and nothing else
— in particular neither failure body carries a message or details field —
and the structured banner the UI builds from such a failure therefore has
no details line. -/
theorem charge_failure_body_shape
    (body : ChargeBody) (platform : ChargeOptions → Except SdkError ChargeResult) :
    ((chargePOST body platform).1.status = 400 →
       (chargePOST body platform).1.body = { error := some "Missing subscriptionId" }) ∧
    ((chargePOST body platform).1.status = 500 →
       (chargePOST body platform).1.body.success = some false ∧
       ((chargePOST body platform).1.body.error).isSome = true ∧
       (chargePOST body platform).1.body.message = none ∧
       (chargePOST body platform).1.body.details = none ∧
       (chargePOST body platform).1.body.transactionHash = none ∧
       (chargePOST body platform).1.body.amount = none ∧
       (chargePOST body platform).1.body.subscriptionOwner = none ∧
       (chargePOST body platform).1.body.subscriptionId = none ∧
       (chargePOST body platform).1.body.recipient = none) ∧
    ((chargePOST body platform).1.status ≠ 200 →
       ∀ s, bannerDetails
         (handleChargeSubscription s false (chargePOST body platform).1.body).state.error
           = none) := by
  by_cases h : strTruthy body.subscriptionId = false
  · refine ⟨?_, ?_, ?_⟩
    · intro _
      simp [chargePOST, h]
    · intro habs
      simp [chargePOST, h] at habs
    · intro _ s
      have hd : ((chargePOST body platform).1.body).details = none := by
        simp [chargePOST, h]
      exact bannerDetails_none_of_data s false _ hd
  · have ht : strTruthy body.subscriptionId = true := by
      revert h
      cases strTruthy body.subscriptionId <;> simp
    cases hp : platform (chargeOptionsOf body) with
    | ok r =>
        refine ⟨?_, ?_, ?_⟩
        · intro habs
          simp [chargePOST, ht, hp] at habs
        · intro habs
          simp [chargePOST, ht, hp] at habs
        · intro habs
          exfalso
          apply habs
          simp [chargePOST, ht, hp]
    | error e =>
        refine ⟨?_, ?_, ?_⟩
        · intro habs
          simp [chargePOST, ht, hp] at habs
        · intro _
          simp [chargePOST, ht, hp]
        · intro _ s
          have hd : ((chargePOST body platform).1.body).details = none := by
            simp [chargePOST, ht, hp]
          exact bannerDetails_none_of_data s false _ hd

/-- Witness for C10 at a body with no id (400 case), a valid body with a
failing platform (500 case), and a concrete UI state for the banner part. -/
theorem charge_failure_body_shape_witness :
    (chargePOST {} demoChargePlatform).1.body = { error := some "Missing subscriptionId" } ∧
    ((chargePOST { subscriptionId := some "sub-1" }
        (fun _ => Except.error { message := "x" })).1.body.success = some false ∧
     (chargePOST { subscriptionId := some "sub-1" }
        (fun _ => Except.error { message := "x" })).1.body.message = none ∧
     (chargePOST { subscriptionId := some "sub-1" }
        (fun _ => Except.error { message := "x" })).1.body.details = none) ∧
    bannerDetails
      (handleChargeSubscription demoState false
        (chargePOST {} demoChargePlatform).1.body).state.error = none := by
  have h400 := (charge_failure_body_shape {} demoChargePlatform).1 rfl
  have h500 := (charge_failure_body_shape { subscriptionId := some "sub-1" }
      (fun _ => Except.error { message := "x" })).2.1 rfl
  have hban := (charge_failure_body_shape {} demoChargePlatform).2.2 (by decide) demoState
  exact ⟨h400, ⟨h500.1, h500.2.2.1, h500.2.2.2.1⟩, hban⟩

end CdpDemo
